import Mathlib

/-!
Shallow embedding of the PSD Procedural Logic Engine core:
the RemapperNode transform and generative-gate engine and the
ProceduralContext credit counter.  JavaScript numbers are modelled as
exact rationals; optional JS fields become `Option`; the optional
`generativePrompt` string is modelled as a `String` where `""` plays the
role of both the empty and the absent prompt (both are falsy in the
source).  The constant `MAX_BOUNDARY_VIOLATION_PERCENT` is imported by
the source from a module not present here; it is kept as an explicit
parameter of the transform context.
-/

namespace PSD

/-- Axis-aligned rectangle {x, y, w, h}. -/
structure Rect where
  x : ℚ
  y : ℚ
  w : ℚ
  h : ℚ
deriving Repr, DecidableEq

/-- Vertical anchor mode of a LayoutStrategy. -/
inductive AnchorMode where
  | TOP
  | BOTTOM
  | CENTER
deriving Repr, DecidableEq

/-- Per-layer override record of a LayoutStrategy. -/
structure LayerOverride where
  layerId : String
  xOffset : ℚ
  yOffset : ℚ
  individualScale : ℚ
deriving Repr, DecidableEq

/-- AI layout strategy metadata attached to a resolved source. -/
structure LayoutStrategy where
  suggestedScale : ℚ
  anchor : AnchorMode
  generativePrompt : String
  isExplicitIntent : Bool
  overrides : List LayerOverride
deriving Repr, DecidableEq

/-- Source layer-tree node (SerializableLayer): identifier, name, type,
visibility, opacity, bounds, optional ordered children. -/
inductive SerializableLayer where
  | mk (id : String) (name : String) (ltype : String) (isVisible : Bool)
       (opacity : ℚ) (coords : Rect)
       (children : Option (List SerializableLayer))
deriving Repr

def SerializableLayer.id : SerializableLayer → String
  | .mk i _ _ _ _ _ _ => i

def SerializableLayer.name : SerializableLayer → String
  | .mk _ n _ _ _ _ _ => n

def SerializableLayer.ltype : SerializableLayer → String
  | .mk _ _ t _ _ _ _ => t

def SerializableLayer.isVisible : SerializableLayer → Bool
  | .mk _ _ _ v _ _ _ => v

def SerializableLayer.opacity : SerializableLayer → ℚ
  | .mk _ _ _ _ o _ _ => o

def SerializableLayer.coords : SerializableLayer → Rect
  | .mk _ _ _ _ _ c _ => c

def SerializableLayer.children : SerializableLayer → Option (List SerializableLayer)
  | .mk _ _ _ _ _ _ ch => ch

/-- Transform metadata attached to each transformed layer. -/
structure LayerTransform where
  scaleX : ℚ
  scaleY : ℚ
  offsetX : ℚ
  offsetY : ℚ
deriving Repr, DecidableEq

/-- Transformed layer-tree node (TransformedLayer). -/
inductive TransformedLayer where
  | mk (id : String) (name : String) (ltype : String) (isVisible : Bool)
       (opacity : ℚ) (coords : Rect) (transform : LayerTransform)
       (children : Option (List TransformedLayer))
       (generativePrompt : Option String)
deriving Repr

def TransformedLayer.id : TransformedLayer → String
  | .mk i _ _ _ _ _ _ _ _ => i

def TransformedLayer.name : TransformedLayer → String
  | .mk _ n _ _ _ _ _ _ _ => n

def TransformedLayer.ltype : TransformedLayer → String
  | .mk _ _ t _ _ _ _ _ _ => t

def TransformedLayer.isVisible : TransformedLayer → Bool
  | .mk _ _ _ v _ _ _ _ _ => v

def TransformedLayer.opacity : TransformedLayer → ℚ
  | .mk _ _ _ _ o _ _ _ _ => o

def TransformedLayer.coords : TransformedLayer → Rect
  | .mk _ _ _ _ _ c _ _ _ => c

def TransformedLayer.transform : TransformedLayer → LayerTransform
  | .mk _ _ _ _ _ _ tr _ _ => tr

def TransformedLayer.children : TransformedLayer → Option (List TransformedLayer)
  | .mk _ _ _ _ _ _ _ ch _ => ch

def TransformedLayer.generativePrompt : TransformedLayer → Option String
  | .mk _ _ _ _ _ _ _ _ g => g

/-- Payload status: 'success' | 'awaiting_confirmation' | 'error'. -/
inductive PayloadStatus where
  | success
  | awaiting_confirmation
  | error
deriving Repr, DecidableEq

/-- Source/target size metrics attached to the payload. -/
structure SizeWH where
  w : ℚ
  h : ℚ
deriving Repr, DecidableEq

structure Metrics where
  source : SizeWH
  target : SizeWH
deriving Repr, DecidableEq

/-- The per-instance output of the transform and gate engine. -/
structure TransformedPayload where
  status : PayloadStatus
  sourceContainer : String
  targetContainer : String
  layers : List TransformedLayer
  scaleFactor : ℚ
  metrics : Metrics
  requiresGeneration : Bool
  previewUrl : Option String
  isConfirmed : Bool
deriving Repr

/-- Ready source side of a resolved instance. -/
structure SourceData where
  name : String
  originalBounds : Rect
  layers : List SerializableLayer
  aiStrategy : Option LayoutStrategy
  previewUrl : Option String
deriving Repr

/-!
## Scale and anchor (part_000 lines 273-307)

Default geometric logic: `scale = min(targetW/sourceW, targetH/sourceH)`
with both axes centered; a strategy overrides scale with its
`suggestedScale` and applies its vertical anchor mode, horizontal
placement staying centered.
-/

def computeScaleAnchor (sourceRect targetRect : Rect)
    (strategy : Option LayoutStrategy) : ℚ × ℚ × ℚ :=
  let ratioX := targetRect.w / sourceRect.w
  let ratioY := targetRect.h / sourceRect.h
  match strategy with
  | some s =>
      let scale := s.suggestedScale
      let scaledW := sourceRect.w * scale
      let scaledH := sourceRect.h * scale
      let anchorX := targetRect.x + (targetRect.w - scaledW) / 2
      let anchorY :=
        match s.anchor with
        | .TOP => targetRect.y
        | .BOTTOM => targetRect.y + (targetRect.h - scaledH)
        | .CENTER => targetRect.y + (targetRect.h - scaledH) / 2
      (scale, anchorX, anchorY)
  | none =>
      let scale := min ratioX ratioY
      let scaledW := sourceRect.w * scale
      let scaledH := sourceRect.h * scale
      let anchorX := targetRect.x + (targetRect.w - scaledW) / 2
      let anchorY := targetRect.y + (targetRect.h - scaledH) / 2
      (scale, anchorX, anchorY)

/-- Context closed over by the recursive `transformLayers` in the source:
source/target rects, chosen scale and anchors, the optional strategy, and
the `MAX_BOUNDARY_VIOLATION_PERCENT` constant. -/
structure TransformCtx where
  sourceRect : Rect
  targetRect : Rect
  scale : ℚ
  anchorX : ℚ
  anchorY : ℚ
  strategy : Option LayoutStrategy
  maxBoundaryViolationPercent : ℚ
deriving Repr

/-!
## Recursive transformation engine (part_000 lines 310-382)

The body of the source's `transformLayers` closure is split into named
pieces so that each intermediate quantity (geometric baseline, pre-clamp
position, child delta, per-axis scale, clamp) can be spoken about.
-/

/-- Geometric baseline (lines 318-322): normalized position inside the
source rect, re-projected via anchor and scale. -/
def layerGeom (ctx : TransformCtx) (layer : SerializableLayer) : ℚ × ℚ :=
  let relX := (layer.coords.x - ctx.sourceRect.x) / ctx.sourceRect.w
  let relY := (layer.coords.y - ctx.sourceRect.y) / ctx.sourceRect.h
  (ctx.anchorX + relX * (ctx.sourceRect.w * ctx.scale),
   ctx.anchorY + relY * (ctx.sourceRect.h * ctx.scale))

/-- Override lookup (line 333): `strategy?.overrides?.find(o => o.layerId === layer.id)`. -/
def overrideFor (strategy : Option LayoutStrategy) (layerId : String) :
    Option LayerOverride :=
  match strategy with
  | some s => s.overrides.find? (fun o => o.layerId == layerId)
  | none => none

/-- Position after inherited delta and override, before clamping
(lines 326-327 and 337-345): an override anchors absolutely at the target
top-left plus its offset; otherwise the baseline is shifted by the
inherited parent delta. -/
def preClampPos (ctx : TransformCtx) (layer : SerializableLayer)
    (parentDeltaX parentDeltaY : ℚ) : ℚ × ℚ :=
  match overrideFor ctx.strategy layer.id with
  | some o => (ctx.targetRect.x + o.xOffset, ctx.targetRect.y + o.yOffset)
  | none =>
      ((layerGeom ctx layer).1 + parentDeltaX,
       (layerGeom ctx layer).2 + parentDeltaY)

/-- Delta threaded to children (lines 334-335 and 347-350): redefined by
an override as (override position − geometric baseline), else inherited. -/
def childDelta (ctx : TransformCtx) (layer : SerializableLayer)
    (parentDeltaX parentDeltaY : ℚ) : ℚ × ℚ :=
  match overrideFor ctx.strategy layer.id with
  | some _ =>
      ((preClampPos ctx layer parentDeltaX parentDeltaY).1 - (layerGeom ctx layer).1,
       (preClampPos ctx layer parentDeltaX parentDeltaY).2 - (layerGeom ctx layer).2)
  | none => (parentDeltaX, parentDeltaY)

/-- Per-axis layer scale (lines 329-330 and 352-354): the global scale,
multiplied by the override's individual scale when one matches. -/
def layerScaleXY (ctx : TransformCtx) (layer : SerializableLayer) : ℚ × ℚ :=
  match overrideFor ctx.strategy layer.id with
  | some o => (ctx.scale * o.individualScale, ctx.scale * o.individualScale)
  | none => (ctx.scale, ctx.scale)

/-- Boundary enforcement (lines 357-363): clamp a y coordinate into the
bleed-expanded target band.  `finalY = max(minY, min(finalY, maxY))`. -/
def clampY (ctx : TransformCtx) (y : ℚ) : ℚ :=
  let bleedY := ctx.targetRect.h * ctx.maxBoundaryViolationPercent
  let minY := ctx.targetRect.y - bleedY
  let maxY := ctx.targetRect.y + ctx.targetRect.h + bleedY
  max minY (min y maxY)

mutual

/-- One step of the source's recursive `transformLayers` map body
(lines 315-381), producing the transformed node for one layer. -/
def transformLayer (ctx : TransformCtx) :
    SerializableLayer → ℚ → ℚ → TransformedLayer
  | layer@(.mk i n t v o c ch), parentDeltaX, parentDeltaY =>
      let pos := preClampPos ctx layer parentDeltaX parentDeltaY
      let finalX := pos.1
      let finalY := clampY ctx pos.2
      let sXY := layerScaleXY ctx layer
      let d := childDelta ctx layer parentDeltaX parentDeltaY
      let newW := c.w * sXY.1
      let newH := c.h * sXY.2
      TransformedLayer.mk i n t v o
        { x := finalX, y := finalY, w := newW, h := newH }
        { scaleX := sXY.1, scaleY := sXY.2, offsetX := finalX, offsetY := finalY }
        (match ch with
         | none => none
         | some cs => some (transformLayers ctx cs d.1 d.2))
        none

/-- The source's recursive `transformLayers` (lines 310-382): maps
`transformLayer` over a sibling list, threading the inherited delta. -/
def transformLayers (ctx : TransformCtx) :
    List SerializableLayer → ℚ → ℚ → List TransformedLayer
  | [], _, _ => []
  | l :: ls, parentDeltaX, parentDeltaY =>
      transformLayer ctx l parentDeltaX parentDeltaY ::
        transformLayers ctx ls parentDeltaX parentDeltaY

end

/-!
## Generative injection logic gate (part_000 lines 386-440)
-/

/-- Gate decision (lines 386-413): returns
(requiresGeneration, generativePromptUsed, status).  Active only when the
strategy carries a truthy (non-empty) generative prompt. -/
def gateDecision (strategy : Option LayoutStrategy) (scale : ℚ)
    (isConfirmed : Bool) (userCredits : ℤ) :
    Bool × Option String × PayloadStatus :=
  match strategy with
  | some s =>
      if s.generativePrompt ≠ "" then
        let scaleThreshold : ℚ := 2
        let isExplicit := s.isExplicitIntent
        let isHighStretch := scale > scaleThreshold
        let hasCredits := userCredits > 0
        if isConfirmed ∧ hasCredits then
          (true, some s.generativePrompt, .success)
        else if isExplicit ∨ isHighStretch then
          (false, none, .awaiting_confirmation)
        else
          (false, none, .success)
      else (false, none, .success)
  | none => (false, none, .success)

/-- The synthetic generative layer injected when the gate opens
(lines 417-436): full-target-rect, type 'generative', carrying the prompt. -/
def genLayerFor (sourceName : String) (prompt : String) (targetRect : Rect) :
    TransformedLayer :=
  TransformedLayer.mk
    ("gen-layer-" ++ (if sourceName = "" then "unknown" else sourceName))
    ("✨ AI Gen: " ++ prompt.take 20 ++ "...")
    "generative" true 1
    { x := targetRect.x, y := targetRect.y, w := targetRect.w, h := targetRect.h }
    { scaleX := 1, scaleY := 1, offsetX := targetRect.x, offsetY := targetRect.y }
    none
    (some prompt)

/-- The transform context an instance closes over: scale and anchors come
from `computeScaleAnchor`, the strategy is the source's. -/
def payloadCtx (source : SourceData) (targetRect : Rect) (p : ℚ) :
    TransformCtx :=
  let sa := computeScaleAnchor source.originalBounds targetRect source.aiStrategy
  { sourceRect := source.originalBounds, targetRect := targetRect,
    scale := sa.1, anchorX := sa.2.1, anchorY := sa.2.2,
    strategy := source.aiStrategy, maxBoundaryViolationPercent := p }

/-- The purely geometric transformed tree of an instance (line 384):
`transformLayers(sourceData.layers)` with initial delta (0, 0). -/
def baseLayers (source : SourceData) (targetRect : Rect) (p : ℚ) :
    List TransformedLayer :=
  transformLayers (payloadCtx source targetRect p) source.layers 0 0

/-- Payload computation for one ready (source, target) instance
(part_000 lines 265-459): scale/anchor, recursive transform from delta
(0,0), gate decision, optional generative-layer prepend, assembly. -/
def computePayload (source : SourceData) (targetName : String)
    (targetRect : Rect) (isConfirmed : Bool) (userCredits : ℤ)
    (localPreview : Option String) (p : ℚ) : TransformedPayload :=
  let sourceRect := source.originalBounds
  let scale := (computeScaleAnchor sourceRect targetRect source.aiStrategy).1
  let transformedLayers := baseLayers source targetRect p
  let gate := gateDecision source.aiStrategy scale isConfirmed userCredits
  let requiresGeneration := gate.1
  let generativePromptUsed := gate.2.1
  let status := gate.2.2
  let layers :=
    match requiresGeneration, generativePromptUsed with
    | true, some prompt => genLayerFor source.name prompt targetRect :: transformedLayers
    | _, _ => transformedLayers
  { status := status,
    sourceContainer := source.name,
    targetContainer := targetName,
    layers := layers,
    scaleFactor := scale,
    metrics := { source := { w := sourceRect.w, h := sourceRect.h },
                 target := { w := targetRect.w, h := targetRect.h } },
    requiresGeneration := requiresGeneration,
    previewUrl := (match source.previewUrl with
                   | some u => some u
                   | none => localPreview),
    isConfirmed := isConfirmed }

/-!
## Target container resolver (part_000 lines 219-263)
-/

/-- A named target slot of a template. -/
structure TemplateContainer where
  name : String
  originalName : Option String
  bounds : Rect
deriving Repr, DecidableEq

/-- Strategy A (line 226): exact name equality with the handle. -/
def strategyA (containers : List TemplateContainer) (handle : String) :
    Option TemplateContainer :=
  containers.find? (fun c => c.name == handle)

/-- Predicate: pre is a leading segment of s, on character lists
(semantics of the source's `String.prototype.startsWith`). -/
def charListPre : List Char → List Char → Bool
  | [], _ => true
  | _ :: _, [] => false
  | a :: as, b :: bs => a == b && charListPre as bs

def strHasHead (pre s : String) : Bool := charListPre pre.data s.data

/-- Decimal accumulation over a digit run; any non-digit character
refuses the parse (the regex in the source anchors at both ends). -/
def parseDigitsAux : List Char → Nat → Option Nat
  | [], acc => some acc
  | c :: cs, acc =>
      if c.isDigit then parseDigitsAux cs (acc * 10 + (c.toNat - '0'.toNat))
      else none

/-- Semantics of `\d+` + `parseInt(…, 10)`: at least one digit, all
characters digits, value read in base 10. -/
def parseDigits : List Char → Option Nat
  | [] => none
  | c :: cs => parseDigitsAux (c :: cs) 0

/-- Strategy B (lines 229-232): strip the 'slot-bounds-' prefix (12
characters) and match the remainder against a container name. -/
def strategyB (containers : List TemplateContainer) (handle : String) :
    Option TemplateContainer :=
  if strHasHead "slot-bounds-" handle then
    containers.find? (fun c => c.name == handle.drop 12)
  else none

/-- Indexed handle parse (line 237): the regex `^target-out-(\d+)$`
followed by `parseInt`, i.e. drop the 11-character 'target-out-' head and
require the remainder to be a non-empty digit string. -/
def parseTargetOutIndex (handle : String) : Option Nat :=
  if strHasHead "target-out-" handle then parseDigits (handle.drop 11).data
  else none

/-- Strategy C (lines 236-245): zero-based index into the container list
when the handle matches the indexed pattern and the index is in bounds. -/
def strategyC (containers : List TemplateContainer) (handle : String) :
    Option TemplateContainer :=
  match parseTargetOutIndex handle with
  | some i => containers[i]?
  | none => none

/-- Full ordered resolution (lines 222-250): A, then B, then C, then the
single-container fallback D. -/
def resolveContainer (containers : List TemplateContainer) (handle : String) :
    Option TemplateContainer :=
  match strategyA containers handle with
  | some c => some c
  | none =>
      match strategyB containers handle with
      | some c => some c
      | none =>
          match strategyC containers handle with
          | some c => some c
          | none =>
              if containers.length = 1 then containers[0]?
              else none

/-!
## Credit consumption (ProceduralContext.tsx lines 163-169)
-/

/-- Compare-and-decrement on the single credit counter (`consumeCredit`).
Returns the reported success flag and the resulting balance. -/
def consumeCredit (userCredits : ℤ) (amount : ℤ) : Bool × ℤ :=
  if userCredits ≥ amount then (true, userCredits - amount)
  else (false, userCredits)

/-!
## Observation helpers

`Skeleton` records the shape of a layer tree together with the fields the
transform spreads through unchanged (identifier, name, visibility,
opacity); `layerSat`/`forestSat` state a per-node property over every
node of a transformed tree.
-/

inductive Skeleton where
  | mk (id : String) (name : String) (isVisible : Bool) (opacity : ℚ)
       (children : Option (List Skeleton))
deriving Repr

mutual

def skelS : SerializableLayer → Skeleton
  | .mk i n _ v o _ none => Skeleton.mk i n v o none
  | .mk i n _ v o _ (some cs) => Skeleton.mk i n v o (some (skelSList cs))

def skelSList : List SerializableLayer → List Skeleton
  | [] => []
  | l :: ls => skelS l :: skelSList ls

end

mutual

def skelT : TransformedLayer → Skeleton
  | .mk i n _ v o _ _ none _ => Skeleton.mk i n v o none
  | .mk i n _ v o _ _ (some cs) _ => Skeleton.mk i n v o (some (skelTList cs))

def skelTList : List TransformedLayer → List Skeleton
  | [] => []
  | l :: ls => skelT l :: skelTList ls

end

mutual

def layerSat (P : TransformedLayer → Prop) : TransformedLayer → Prop
  | t@(.mk _ _ _ _ _ _ _ ch _) =>
      P t ∧ (match ch with
             | none => True
             | some cs => forestSat P cs)

def forestSat (P : TransformedLayer → Prop) : List TransformedLayer → Prop
  | [] => True
  | t :: ts => layerSat P t ∧ forestSat P ts

end

/-- The clamp band of a context: y must lie within the bleed-expanded
target rect. -/
def inClampBand (ctx : TransformCtx) (t : TransformedLayer) : Prop :=
  ctx.targetRect.y - ctx.targetRect.h * ctx.maxBoundaryViolationPercent ≤ t.coords.y ∧
  t.coords.y ≤ ctx.targetRect.y + ctx.targetRect.h +
      ctx.targetRect.h * ctx.maxBoundaryViolationPercent

/-!
## Concrete sample inputs used by counterexamples and witnesses
-/

/-- Root layer coincident with the sample source bounds {0,0,100,100}. -/
def sampleRoot : SerializableLayer :=
  .mk "root" "Root" "group" true 1 ⟨0, 0, 100, 100⟩ none

/-- Sample strategy-free source over bounds {0,0,100,100}. -/
def sampleSource : SourceData :=
  { name := "S", originalBounds := ⟨0, 0, 100, 100⟩, layers := [sampleRoot],
    aiStrategy := none, previewUrl := none }

/-- Sample target bounds {0,0,50,200}. -/
def sampleTarget : Rect := ⟨0, 0, 50, 200⟩

/-- A strategy with an explicit-intent generative prompt. -/
def explicitStrategy : LayoutStrategy :=
  { suggestedScale := 1, anchor := .CENTER, generativePrompt := "fill sky",
    isExplicitIntent := true, overrides := [] }

/-- The sample source carrying `explicitStrategy`. -/
def promptedSource : SourceData :=
  { sampleSource with aiStrategy := some explicitStrategy }

/-- A prompt-free BOTTOM-anchored strategy with suggested scale 1. -/
def bottomStrategy : LayoutStrategy :=
  { suggestedScale := 1, anchor := .BOTTOM, generativePrompt := "",
    isExplicitIntent := false, overrides := [] }

/-- An override sending the root layer 10000 below the target origin. -/
def hugeOverride : LayerOverride := ⟨"root", 0, 10000, 1⟩

/-- A strategy carrying only `hugeOverride`. -/
def overrideStrategy : LayoutStrategy :=
  { suggestedScale := 1, anchor := .CENTER, generativePrompt := "",
    isExplicitIntent := false, overrides := [hugeOverride] }

/-- A context over the sample rects carrying `overrideStrategy`. -/
def overrideCtx : TransformCtx :=
  { sourceRect := ⟨0, 0, 100, 100⟩, targetRect := ⟨0, 0, 50, 200⟩,
    scale := 1, anchorX := 0, anchorY := 0,
    strategy := some overrideStrategy,
    maxBoundaryViolationPercent := 1 / 20 }

/-!
## Shared lemmas
-/

theorem skelS_eq_skelT_of_mk (i n t v o : _) (c : Rect) (tr : LayerTransform)
    (g : Option String) :
    skelT (TransformedLayer.mk i n t v o c tr none g) =
      Skeleton.mk i n v o none := by
  simp [skelT]

mutual

theorem skelT_transformLayer (ctx : TransformCtx) :
    ∀ (l : SerializableLayer) (pdx pdy : ℚ),
      skelT (transformLayer ctx l pdx pdy) = skelS l
  | .mk i n t v o c none, pdx, pdy => by
      simp [transformLayer, skelT, skelS]
  | .mk i n t v o c (some cs), pdx, pdy => by
      simp [transformLayer, skelT, skelS]
      exact skelTList_transformLayers ctx cs _ _

theorem skelTList_transformLayers (ctx : TransformCtx) :
    ∀ (ls : List SerializableLayer) (pdx pdy : ℚ),
      skelTList (transformLayers ctx ls pdx pdy) = skelSList ls
  | [], _, _ => by simp [transformLayers, skelTList, skelSList]
  | l :: ls, pdx, pdy => by
      simp [transformLayers, skelTList, skelSList]
      exact ⟨skelT_transformLayer ctx l _ _, skelTList_transformLayers ctx ls _ _⟩

end

theorem clampY_bounds (ctx : TransformCtx)
    (hp : 0 ≤ ctx.maxBoundaryViolationPercent)
    (hh : 0 ≤ ctx.targetRect.h) (y : ℚ) :
    ctx.targetRect.y - ctx.targetRect.h * ctx.maxBoundaryViolationPercent ≤ clampY ctx y ∧
    clampY ctx y ≤ ctx.targetRect.y + ctx.targetRect.h +
        ctx.targetRect.h * ctx.maxBoundaryViolationPercent := by
  have hb : 0 ≤ ctx.targetRect.h * ctx.maxBoundaryViolationPercent :=
    mul_nonneg hh hp
  unfold clampY
  constructor
  · exact le_max_left _ _
  · apply max_le
    · linarith
    · exact le_trans (min_le_right _ _) (le_refl _)

mutual

theorem layerSat_clamp (ctx : TransformCtx)
    (hp : 0 ≤ ctx.maxBoundaryViolationPercent)
    (hh : 0 ≤ ctx.targetRect.h) :
    ∀ (l : SerializableLayer) (pdx pdy : ℚ),
      layerSat (inClampBand ctx) (transformLayer ctx l pdx pdy)
  | .mk i n t v o c none, pdx, pdy => by
      simp [transformLayer, layerSat]
      exact clampY_bounds ctx hp hh _
  | .mk i n t v o c (some cs), pdx, pdy => by
      simp [transformLayer, layerSat]
      exact ⟨clampY_bounds ctx hp hh _, forestSat_clamp ctx hp hh cs _ _⟩

theorem forestSat_clamp (ctx : TransformCtx)
    (hp : 0 ≤ ctx.maxBoundaryViolationPercent)
    (hh : 0 ≤ ctx.targetRect.h) :
    ∀ (ls : List SerializableLayer) (pdx pdy : ℚ),
      forestSat (inClampBand ctx) (transformLayers ctx ls pdx pdy)
  | [], _, _ => by simp [transformLayers, forestSat]
  | l :: ls, pdx, pdy => by
      simp [transformLayers, forestSat]
      exact ⟨layerSat_clamp ctx hp hh l _ _, forestSat_clamp ctx hp hh ls _ _⟩

end

/-- If the gate reports `requiresGeneration = true` then it also produced
the strategy's prompt and status success. -/
theorem gate_true_inversion (strategy : Option LayoutStrategy) (scale : ℚ)
    (isConfirmed : Bool) (userCredits : ℤ)
    (h : (gateDecision strategy scale isConfirmed userCredits).1 = true) :
    ∃ s, strategy = some s ∧ s.generativePrompt ≠ "" ∧
      gateDecision strategy scale isConfirmed userCredits =
        (true, some s.generativePrompt, .success) := by
  match strategy with
  | none => simp [gateDecision] at h
  | some s =>
      by_cases hp : s.generativePrompt = ""
      · simp [gateDecision, hp] at h
      · by_cases hc : isConfirmed = true ∧ 0 < userCredits
        · exact ⟨s, rfl, hp, by simp [gateDecision, hp, hc]⟩
        · exfalso
          by_cases he : s.isExplicitIntent = true ∨ 2 < scale <;>
            simp [gateDecision, hp, hc, he] at h

/-!
## Claim theorems
-/

/-- C8: `consumeCredit` is a compare-and-decrement: for every amount ≥ 0
it returns true and decreases the balance by exactly the amount when the
balance covers it, otherwise returns false leaving the balance unchanged;
hence it never drives a non-negative balance below zero. -/
theorem C8_consume_credit (userCredits amount : ℤ) (hamt : 0 ≤ amount) :
    (amount ≤ userCredits →
        consumeCredit userCredits amount = (true, userCredits - amount)) ∧
    (¬ amount ≤ userCredits →
        consumeCredit userCredits amount = (false, userCredits)) ∧
    (0 ≤ userCredits → 0 ≤ (consumeCredit userCredits amount).2) := by
  unfold consumeCredit
  refine ⟨fun hc => by simp [hc], fun hc => by simp [hc], fun hc => ?_⟩
  by_cases hc2 : userCredits ≥ amount <;> simp [hc2] <;> linarith

/-- Witness for C8 at balance 5 / amount 2 (success) and balance 1 /
amount 2 (refusal), both leaving a non-negative balance. -/
theorem C8_consume_credit_witness :
    consumeCredit 5 2 = (true, 3) ∧ consumeCredit 1 2 = (false, 1) ∧
    0 ≤ (consumeCredit 5 2).2 := by
  refine ⟨?_, ?_, ?_⟩
  · have h := (C8_consume_credit 5 2 (by norm_num)).1 (by norm_num)
    rw [h]; norm_num
  · exact ((C8_consume_credit 1 2 (by norm_num)).2).1 (by norm_num)
  · exact ((C8_consume_credit 5 2 (by norm_num)).2).2 (by norm_num)

/-- C7: the target-container resolver tries, in order, exact handle-name
equality, the 'slot-bounds-' prefix strip, the 'target-out-N' zero-based
index, then the single-container fallback, and uses the first strategy
that matches; in particular an exact-name match wins over an indexed
match. -/
theorem C7_resolver_order (containers : List TemplateContainer)
    (handle : String) :
    (∀ c, strategyA containers handle = some c →
        resolveContainer containers handle = some c) ∧
    (strategyA containers handle = none →
      ∀ c, strategyB containers handle = some c →
        resolveContainer containers handle = some c) ∧
    (strategyA containers handle = none →
      strategyB containers handle = none →
      ∀ c, strategyC containers handle = some c →
        resolveContainer containers handle = some c) ∧
    (strategyA containers handle = none →
      strategyB containers handle = none →
      strategyC containers handle = none →
      containers.length = 1 →
        resolveContainer containers handle = containers[0]?) ∧
    (strategyA containers handle = none →
      strategyB containers handle = none →
      strategyC containers handle = none →
      containers.length ≠ 1 →
        resolveContainer containers handle = none) ∧
    (∀ c c', strategyA containers handle = some c →
        strategyC containers handle = some c' →
        resolveContainer containers handle = some c) := by
  unfold resolveContainer
  refine ⟨fun c hA => by simp [hA],
          fun hA c hB => by simp [hA, hB],
          fun hA hB c hC => by simp [hA, hB, hC],
          fun hA hB hC hlen => by simp [hA, hB, hC, hlen],
          fun hA hB hC hlen => by simp [hA, hB, hC, hlen],
          fun c c' hA hC => by simp [hA]⟩

/-- Witness for C7: the handle "target-out-1" both equals the first
container's name (strategy A) and indexes the second container
(strategy C); resolution returns the exact-name match. -/
theorem C7_resolver_order_witness :
    strategyA [⟨"target-out-1", none, ⟨0, 0, 1, 1⟩⟩,
               ⟨"X", none, ⟨1, 1, 2, 2⟩⟩] "target-out-1" =
      some ⟨"target-out-1", none, ⟨0, 0, 1, 1⟩⟩ ∧
    strategyC [⟨"target-out-1", none, ⟨0, 0, 1, 1⟩⟩,
               ⟨"X", none, ⟨1, 1, 2, 2⟩⟩] "target-out-1" =
      some ⟨"X", none, ⟨1, 1, 2, 2⟩⟩ ∧
    resolveContainer [⟨"target-out-1", none, ⟨0, 0, 1, 1⟩⟩,
                      ⟨"X", none, ⟨1, 1, 2, 2⟩⟩] "target-out-1" =
      some ⟨"target-out-1", none, ⟨0, 0, 1, 1⟩⟩ := by
  have hA : strategyA [⟨"target-out-1", none, ⟨0, 0, 1, 1⟩⟩,
      ⟨"X", none, ⟨1, 1, 2, 2⟩⟩] "target-out-1" =
      some ⟨"target-out-1", none, ⟨0, 0, 1, 1⟩⟩ := by decide
  have hC : strategyC [⟨"target-out-1", none, ⟨0, 0, 1, 1⟩⟩,
      ⟨"X", none, ⟨1, 1, 2, 2⟩⟩] "target-out-1" =
      some ⟨"X", none, ⟨1, 1, 2, 2⟩⟩ := by decide
  exact ⟨hA, hC,
    (C7_resolver_order _ "target-out-1").2.2.2.2.2 _ _ hA hC⟩

/-- C2: for positive source and target dimensions the default
(no-strategy) scale is min(targetW/sourceW, targetH/sourceH) with both
anchors centered; a strategy substitutes its suggestedScale and vertical
anchor mode (TOP: target top; BOTTOM: target bottom minus scaled height;
else center), horizontal placement staying centered; and a root layer
coincident with the source origin lands exactly on the anchor. -/
theorem C2_default_placement (sourceRect targetRect : Rect)
    (hsw : 0 < sourceRect.w) (hsh : 0 < sourceRect.h)
    (htw : 0 < targetRect.w) (hth : 0 < targetRect.h) :
    ((computeScaleAnchor sourceRect targetRect none).1 =
        min (targetRect.w / sourceRect.w) (targetRect.h / sourceRect.h) ∧
      (computeScaleAnchor sourceRect targetRect none).2.1 =
        targetRect.x + (targetRect.w -
          sourceRect.w * (computeScaleAnchor sourceRect targetRect none).1) / 2 ∧
      (computeScaleAnchor sourceRect targetRect none).2.2 =
        targetRect.y + (targetRect.h -
          sourceRect.h * (computeScaleAnchor sourceRect targetRect none).1) / 2) ∧
    (∀ s : LayoutStrategy,
      (computeScaleAnchor sourceRect targetRect (some s)).1 = s.suggestedScale ∧
      (computeScaleAnchor sourceRect targetRect (some s)).2.1 =
        targetRect.x + (targetRect.w - sourceRect.w * s.suggestedScale) / 2 ∧
      (s.anchor = .TOP →
        (computeScaleAnchor sourceRect targetRect (some s)).2.2 = targetRect.y) ∧
      (s.anchor = .BOTTOM →
        (computeScaleAnchor sourceRect targetRect (some s)).2.2 =
          targetRect.y + targetRect.h - sourceRect.h * s.suggestedScale) ∧
      (s.anchor = .CENTER →
        (computeScaleAnchor sourceRect targetRect (some s)).2.2 =
          targetRect.y + (targetRect.h - sourceRect.h * s.suggestedScale) / 2)) ∧
    (∀ (l : SerializableLayer) (p : ℚ),
      l.coords.x = sourceRect.x → l.coords.y = sourceRect.y →
      preClampPos
        { sourceRect := sourceRect, targetRect := targetRect,
          scale := (computeScaleAnchor sourceRect targetRect none).1,
          anchorX := (computeScaleAnchor sourceRect targetRect none).2.1,
          anchorY := (computeScaleAnchor sourceRect targetRect none).2.2,
          strategy := none, maxBoundaryViolationPercent := p } l 0 0 =
      ((computeScaleAnchor sourceRect targetRect none).2.1,
       (computeScaleAnchor sourceRect targetRect none).2.2)) := by
  refine ⟨⟨rfl, rfl, rfl⟩, fun s => ⟨rfl, rfl, ?_, ?_, ?_⟩, ?_⟩
  · intro hA; simp [computeScaleAnchor, hA]
  · intro hA; simp [computeScaleAnchor, hA]; ring
  · intro hA; simp [computeScaleAnchor, hA]
  · intro l p hx hy
    simp [preClampPos, overrideFor, layerGeom, hx, hy]

/-- C1: with a non-empty generative prompt, confirmation plus positive
credits approves generation (requiresGeneration = true, status success,
exactly one synthetic full-target 'generative' layer carrying the prompt
prepended); otherwise explicit intent or scale above the 2.0 threshold
defers to awaiting_confirmation with no injection; otherwise the payload
stays purely geometric; and without a prompt the gate never activates. -/
theorem C1_generative_gate (source : SourceData) (targetName : String)
    (targetRect : Rect) (isConfirmed : Bool) (userCredits : ℤ)
    (localPreview : Option String) (p : ℚ) :
    (∀ s, source.aiStrategy = some s → s.generativePrompt ≠ "" →
      ((isConfirmed = true ∧ 0 < userCredits →
        (computePayload source targetName targetRect isConfirmed userCredits
            localPreview p).requiresGeneration = true ∧
        (computePayload source targetName targetRect isConfirmed userCredits
            localPreview p).status = .success ∧
        (computePayload source targetName targetRect isConfirmed userCredits
            localPreview p).layers =
          genLayerFor source.name s.generativePrompt targetRect ::
            baseLayers source targetRect p ∧
        (genLayerFor source.name s.generativePrompt targetRect).ltype =
          "generative" ∧
        (genLayerFor source.name s.generativePrompt targetRect).coords =
          targetRect ∧
        (genLayerFor source.name s.generativePrompt targetRect).generativePrompt =
          some s.generativePrompt) ∧
       (¬(isConfirmed = true ∧ 0 < userCredits) →
        (s.isExplicitIntent = true ∨
          2 < (computeScaleAnchor source.originalBounds targetRect
                source.aiStrategy).1) →
        (computePayload source targetName targetRect isConfirmed userCredits
            localPreview p).status = .awaiting_confirmation ∧
        (computePayload source targetName targetRect isConfirmed userCredits
            localPreview p).requiresGeneration = false ∧
        (computePayload source targetName targetRect isConfirmed userCredits
            localPreview p).layers = baseLayers source targetRect p) ∧
       (¬(isConfirmed = true ∧ 0 < userCredits) →
        ¬(s.isExplicitIntent = true ∨
          2 < (computeScaleAnchor source.originalBounds targetRect
                source.aiStrategy).1) →
        (computePayload source targetName targetRect isConfirmed userCredits
            localPreview p).status = .success ∧
        (computePayload source targetName targetRect isConfirmed userCredits
            localPreview p).requiresGeneration = false ∧
        (computePayload source targetName targetRect isConfirmed userCredits
            localPreview p).layers = baseLayers source targetRect p))) ∧
    ((source.aiStrategy = none ∨
        ∃ s, source.aiStrategy = some s ∧ s.generativePrompt = "") →
      (computePayload source targetName targetRect isConfirmed userCredits
          localPreview p).requiresGeneration = false ∧
      (computePayload source targetName targetRect isConfirmed userCredits
          localPreview p).status = .success ∧
      (computePayload source targetName targetRect isConfirmed userCredits
          localPreview p).layers = baseLayers source targetRect p) := by
  constructor
  · intro s hs hp
    refine ⟨fun hc => ?_, fun hc he => ?_, fun hc he => ?_⟩
    · refine ⟨?_, ?_, ?_, rfl, rfl, rfl⟩ <;>
        simp [computePayload, hs, gateDecision, hp, hc]
    · rw [hs] at he
      refine ⟨?_, ?_, ?_⟩ <;>
        simp [computePayload, hs, gateDecision, hp, hc, he]
    · rw [hs] at he
      refine ⟨?_, ?_, ?_⟩ <;>
        simp [computePayload, hs, gateDecision, hp, hc, he]
  · rintro (hnone | ⟨s, hs, hp⟩) <;>
      refine ⟨?_, ?_, ?_⟩ <;>
        simp_all [computePayload, gateDecision]

/-- Witness for C1: with the explicit prompted sample source, confirmed
and 3 credits, generation is approved and the generative layer is
prepended; unconfirmed, the same source awaits confirmation. -/
theorem C1_generative_gate_witness :
    (computePayload promptedSource "T" sampleTarget true 3 none
        (1 / 20)).requiresGeneration = true ∧
    (computePayload promptedSource "T" sampleTarget true 3 none
        (1 / 20)).status = .success ∧
    (computePayload promptedSource "T" sampleTarget true 3 none
        (1 / 20)).layers =
      genLayerFor promptedSource.name explicitStrategy.generativePrompt
          sampleTarget :: baseLayers promptedSource sampleTarget (1 / 20) ∧
    (computePayload promptedSource "T" sampleTarget false 3 none
        (1 / 20)).status = .awaiting_confirmation := by
  have h1 := ((C1_generative_gate promptedSource "T" sampleTarget true 3 none
      (1 / 20)).1 explicitStrategy rfl (by decide)).1 ⟨rfl, by norm_num⟩
  have h2 := (((C1_generative_gate promptedSource "T" sampleTarget false 3 none
      (1 / 20)).1 explicitStrategy rfl (by decide)).2.1
      (by simp) (Or.inl rfl)).1
  exact ⟨h1.1, h1.2.1, h1.2.2.1, h2⟩

/-- C9: when generation is not approved the transformed tree has exactly
the shape of the source tree with identifier, name, visibility and
opacity preserved on every node (stated via skeleton equality); when it
is approved, the sole difference is one generative layer prepended at the
top level. -/
theorem C9_shape_preservation (source : SourceData) (targetName : String)
    (targetRect : Rect) (isConfirmed : Bool) (userCredits : ℤ)
    (localPreview : Option String) (p : ℚ) :
    ((computePayload source targetName targetRect isConfirmed userCredits
        localPreview p).requiresGeneration = false →
      skelTList (computePayload source targetName targetRect isConfirmed
        userCredits localPreview p).layers = skelSList source.layers) ∧
    ((computePayload source targetName targetRect isConfirmed userCredits
        localPreview p).requiresGeneration = true →
      ∃ prompt,
        (computePayload source targetName targetRect isConfirmed userCredits
            localPreview p).layers =
          genLayerFor source.name prompt targetRect ::
            baseLayers source targetRect p ∧
        skelTList (baseLayers source targetRect p) =
          skelSList source.layers) := by
  have hbase : skelTList (baseLayers source targetRect p) =
      skelSList source.layers :=
    skelTList_transformLayers _ source.layers 0 0
  constructor
  · intro hreq
    rcases hg : gateDecision source.aiStrategy
        (computeScaleAnchor source.originalBounds targetRect source.aiStrategy).1
        isConfirmed userCredits with ⟨rg, gp, st⟩
    cases rg with
    | true =>
        exfalso
        simp [computePayload, hg] at hreq
    | false =>
        have hl : (computePayload source targetName targetRect isConfirmed
            userCredits localPreview p).layers = baseLayers source targetRect p := by
          simp [computePayload, hg]
        rw [hl, hbase]
  · intro hreq
    rcases hg : gateDecision source.aiStrategy
        (computeScaleAnchor source.originalBounds targetRect source.aiStrategy).1
        isConfirmed userCredits with ⟨rg, gp, st⟩
    cases rg with
    | false => exfalso; simp [computePayload, hg] at hreq
    | true =>
        obtain ⟨s, -, -, heq⟩ := gate_true_inversion _ _ _ _ (by rw [hg])
        rw [hg] at heq
        simp only [Prod.mk.injEq] at heq
        refine ⟨s.generativePrompt, ?_, hbase⟩
        simp [computePayload, hg, heq.2.1]

/-- Witness for C9: the strategy-free sample instance preserves the
source skeleton; the confirmed prompted instance prepends one layer. -/
theorem C9_shape_preservation_witness :
    skelTList (computePayload sampleSource "T" sampleTarget false 5 none
        (1 / 20)).layers = skelSList sampleSource.layers ∧
    ∃ prompt,
      (computePayload promptedSource "T" sampleTarget true 3 none
          (1 / 20)).layers =
        genLayerFor promptedSource.name prompt sampleTarget ::
          baseLayers promptedSource sampleTarget (1 / 20) ∧
      skelTList (baseLayers promptedSource sampleTarget (1 / 20)) =
        skelSList promptedSource.layers := by
  constructor
  · exact (C9_shape_preservation sampleSource "T" sampleTarget false 5 none
      (1 / 20)).1 rfl
  · exact (C9_shape_preservation promptedSource "T" sampleTarget true 3 none
      (1 / 20)).2 rfl

/-- C3: an override matching a layer's identifier makes the layer's
pre-clamp position target origin + offset, independent of the inherited
delta and of the geometric baseline; the delta passed to children is the
difference between the override-driven position and the baseline, so a
child without its own override shifts by exactly that delta relative to
its own baseline; and the override's individualScale multiplies (not
replaces) the global scale on both axes, sizes following. -/
theorem C3_override_injection (ctx : TransformCtx) (layer : SerializableLayer)
    (parentDeltaX parentDeltaY altDeltaX altDeltaY : ℚ) (o : LayerOverride)
    (hov : overrideFor ctx.strategy layer.id = some o) :
    preClampPos ctx layer parentDeltaX parentDeltaY =
      (ctx.targetRect.x + o.xOffset, ctx.targetRect.y + o.yOffset) ∧
    preClampPos ctx layer parentDeltaX parentDeltaY =
      preClampPos ctx layer altDeltaX altDeltaY ∧
    childDelta ctx layer parentDeltaX parentDeltaY =
      ((ctx.targetRect.x + o.xOffset) - (layerGeom ctx layer).1,
       (ctx.targetRect.y + o.yOffset) - (layerGeom ctx layer).2) ∧
    layerScaleXY ctx layer =
      (ctx.scale * o.individualScale, ctx.scale * o.individualScale) ∧
    (transformLayer ctx layer parentDeltaX parentDeltaY).coords.w =
      layer.coords.w * (ctx.scale * o.individualScale) ∧
    (transformLayer ctx layer parentDeltaX parentDeltaY).coords.h =
      layer.coords.h * (ctx.scale * o.individualScale) ∧
    (transformLayer ctx layer parentDeltaX parentDeltaY).coords.x =
      ctx.targetRect.x + o.xOffset ∧
    (∀ child : SerializableLayer,
      overrideFor ctx.strategy child.id = none →
      preClampPos ctx child (childDelta ctx layer parentDeltaX parentDeltaY).1
          (childDelta ctx layer parentDeltaX parentDeltaY).2 =
        ((layerGeom ctx child).1 +
           (childDelta ctx layer parentDeltaX parentDeltaY).1,
         (layerGeom ctx child).2 +
           (childDelta ctx layer parentDeltaX parentDeltaY).2)) := by
  refine ⟨?_, ?_, ?_, ?_, ?_, ?_, ?_, ?_⟩
  · simp [preClampPos, hov]
  · simp [preClampPos, hov]
  · simp [childDelta, preClampPos, hov]
  · simp [layerScaleXY, hov]
  · have hscale : layerScaleXY ctx layer =
        (ctx.scale * o.individualScale, ctx.scale * o.individualScale) := by
      simp [layerScaleXY, hov]
    cases layer with
    | mk i n t v op c ch =>
        cases ch <;>
          simp [transformLayer, TransformedLayer.coords, hscale,
            SerializableLayer.coords]
  · have hscale : layerScaleXY ctx layer =
        (ctx.scale * o.individualScale, ctx.scale * o.individualScale) := by
      simp [layerScaleXY, hov]
    cases layer with
    | mk i n t v op c ch =>
        cases ch <;>
          simp [transformLayer, TransformedLayer.coords, hscale,
            SerializableLayer.coords]
  · have hpos : preClampPos ctx layer parentDeltaX parentDeltaY =
        (ctx.targetRect.x + o.xOffset, ctx.targetRect.y + o.yOffset) := by
      simp [preClampPos, hov]
    cases layer with
    | mk i n t v op c ch =>
        cases ch <;>
          simp [transformLayer, TransformedLayer.coords, hpos]
  · intro child hchild
    simp [preClampPos, hchild]

/-- C4: every layer of every transformed tree has its y coordinate inside
[targetY − p·targetH, targetY + targetH + p·targetH] (p the boundary
violation fraction), for any override magnitude and inherited delta,
while the x coordinate is never clamped. -/
theorem C4_boundary_clamp (ctx : TransformCtx)
    (hp : 0 ≤ ctx.maxBoundaryViolationPercent)
    (hh : 0 ≤ ctx.targetRect.h) :
    (∀ (layers : List SerializableLayer) (parentDeltaX parentDeltaY : ℚ),
       forestSat (inClampBand ctx)
         (transformLayers ctx layers parentDeltaX parentDeltaY)) ∧
    (∀ (layer : SerializableLayer) (parentDeltaX parentDeltaY : ℚ),
       (transformLayer ctx layer parentDeltaX parentDeltaY).coords.x =
         (preClampPos ctx layer parentDeltaX parentDeltaY).1) := by
  constructor
  · exact fun layers pdx pdy => forestSat_clamp ctx hp hh layers pdx pdy
  · intro layer pdx pdy
    cases layer with
    | mk i n t v o c ch =>
        cases ch <;> simp [transformLayer, TransformedLayer.coords]

/-- Witness for C4 on the sample geometry with p = 1/20 and an extreme
inherited delta. -/
theorem C4_boundary_clamp_witness :
    (0 : ℚ) ≤ 1 / 20 ∧ (0 : ℚ) ≤ 200 ∧
    forestSat
      (inClampBand
        { sourceRect := ⟨0, 0, 100, 100⟩, targetRect := ⟨0, 0, 50, 200⟩,
          scale := 1 / 2, anchorX := 0, anchorY := 75, strategy := none,
          maxBoundaryViolationPercent := 1 / 20 })
      (transformLayers
        { sourceRect := ⟨0, 0, 100, 100⟩, targetRect := ⟨0, 0, 50, 200⟩,
          scale := 1 / 2, anchorX := 0, anchorY := 75, strategy := none,
          maxBoundaryViolationPercent := 1 / 20 }
        [sampleRoot] 0 100000) := by
  refine ⟨by norm_num, by norm_num, ?_⟩
  exact (C4_boundary_clamp _ (by norm_num) (by norm_num)).1 [sampleRoot] 0 100000

/-- C10: the delta threaded to a layer's children is computed before the
boundary clamp is applied to the layer's own y: the children are
transformed with `childDelta`, which is built from the pre-clamp position
and is invariant under the bleed parameter, while the layer's own y is
the clamped pre-clamp y. -/
theorem C10_clamp_not_inherited (ctx : TransformCtx)
    (layer : SerializableLayer) (parentDeltaX parentDeltaY : ℚ) :
    (transformLayer ctx layer parentDeltaX parentDeltaY).children =
      Option.map
        (fun cs => transformLayers ctx cs
          (childDelta ctx layer parentDeltaX parentDeltaY).1
          (childDelta ctx layer parentDeltaX parentDeltaY).2)
        layer.children ∧
    (transformLayer ctx layer parentDeltaX parentDeltaY).coords.y =
      clampY ctx (preClampPos ctx layer parentDeltaX parentDeltaY).2 ∧
    (∀ o, overrideFor ctx.strategy layer.id = some o →
       childDelta ctx layer parentDeltaX parentDeltaY =
         ((preClampPos ctx layer parentDeltaX parentDeltaY).1 -
            (layerGeom ctx layer).1,
          (preClampPos ctx layer parentDeltaX parentDeltaY).2 -
            (layerGeom ctx layer).2)) ∧
    (overrideFor ctx.strategy layer.id = none →
       childDelta ctx layer parentDeltaX parentDeltaY =
         (parentDeltaX, parentDeltaY)) ∧
    (∀ q : ℚ,
       childDelta { ctx with maxBoundaryViolationPercent := q } layer
           parentDeltaX parentDeltaY =
         childDelta ctx layer parentDeltaX parentDeltaY ∧
       preClampPos { ctx with maxBoundaryViolationPercent := q } layer
           parentDeltaX parentDeltaY =
         preClampPos ctx layer parentDeltaX parentDeltaY) := by
  refine ⟨?_, ?_, ?_, ?_, ?_⟩
  · cases layer with
    | mk i n t v o c ch =>
        cases ch <;>
          simp [transformLayer, SerializableLayer.children,
            TransformedLayer.children]
  · cases layer with
    | mk i n t v o c ch =>
        cases ch <;> simp [transformLayer, TransformedLayer.coords]
  · intro o hov
    simp [childDelta, hov]
  · intro hov
    simp [childDelta, hov]
  · intro q
    constructor <;>
      simp [childDelta, preClampPos, overrideFor, layerGeom]

/-- Witness for C10: an override with a y offset of 10000 is clamped to
210 on the layer itself, while the delta passed to its children is built
from the unclamped 10000-based position. -/
theorem C10_clamp_not_inherited_witness :
    overrideFor (some overrideStrategy) sampleRoot.id = some hugeOverride ∧
    childDelta overrideCtx sampleRoot 0 0 =
      ((0 + 0) - (layerGeom overrideCtx sampleRoot).1,
       (0 + 10000) - (layerGeom overrideCtx sampleRoot).2) := by
  have hov : overrideFor overrideCtx.strategy sampleRoot.id =
      some hugeOverride := by decide
  have h := (C10_clamp_not_inherited overrideCtx sampleRoot 0 0).2.2.1
    hugeOverride hov
  have hov2 : overrideFor (some overrideStrategy) sampleRoot.id =
      some hugeOverride := by decide
  refine ⟨hov2, ?_⟩
  rw [h]
  simp [preClampPos, overrideCtx, hov2, hugeOverride]

/-- Witness for C3: the huge override places the root at (0, 10000)
regardless of the inherited delta, and multiplies the scale. -/
theorem C3_override_injection_witness :
    preClampPos overrideCtx sampleRoot 0 0 = (0, 10000) ∧
    preClampPos overrideCtx sampleRoot 0 0 =
      preClampPos overrideCtx sampleRoot 5 7 ∧
    layerScaleXY overrideCtx sampleRoot = (1, 1) := by
  have h := C3_override_injection overrideCtx sampleRoot 0 0 5 7 hugeOverride
    (by decide)
  refine ⟨?_, h.2.1, ?_⟩
  · rw [h.1]; simp [overrideCtx, hugeOverride]
  · rw [h.2.2.2.1]; simp [overrideCtx, hugeOverride]

/-- C5: at the insufficient-credits input — generative prompt present,
explicit intent, instance confirmed, zero credits — the engine emits
status awaiting_confirmation, not the specified 'error': the error
branch is never produced by the gate. -/
theorem C5_error_branch_dormant :
    (computePayload promptedSource "T" sampleTarget true 0 none
        (1 / 20)).status = .awaiting_confirmation ∧
    (computePayload promptedSource "T" sampleTarget true 0 none
        (1 / 20)).status ≠ .error := by
  exact ⟨rfl, by decide⟩

/-- C6 counterexample: for source {0,0,100,100} and target {0,0,50,200}
with no strategy the scale is 1/2 and the transformed root layer sits at
y = (200 − 50)/2 = 75, which is not the claimed 50. -/
theorem C6_counterexample :
    (computePayload sampleSource "T" sampleTarget false 5 none
        (1 / 20)).scaleFactor = 1 / 2 ∧
    (computePayload sampleSource "T" sampleTarget false 5 none
        (1 / 20)).layers =
      [TransformedLayer.mk "root" "Root" "group" true 1 ⟨0, 75, 50, 50⟩
        ⟨1 / 2, 1 / 2, 0, 75⟩ none none] ∧
    (75 : ℚ) ≠ 50 := by
  refine ⟨?_, ?_, by norm_num⟩
  · simp [computePayload, computeScaleAnchor, sampleSource, sampleTarget]
    norm_num [min_def]
  · simp [computePayload, baseLayers, payloadCtx, computeScaleAnchor,
      gateDecision, transformLayers, transformLayer, preClampPos, overrideFor,
      layerGeom, childDelta, layerScaleXY, clampY, sampleSource, sampleTarget,
      sampleRoot, SerializableLayer.id, SerializableLayer.coords]
    norm_num [min_def, max_def]

/-- C6 amended: for source {0,0,100,100} and target {0,0,50,200} with no
strategy, the scale is 0.5 and the transformed root layer sits at x = 0
and y = 75 (vertically centered per (200 − 50)/2 = 75), for every
non-negative bleed fraction. -/
theorem C6_amended (p : ℚ) (hp : 0 ≤ p) :
    (computePayload sampleSource "T" sampleTarget false 5 none
        p).scaleFactor = 1 / 2 ∧
    (computePayload sampleSource "T" sampleTarget false 5 none p).layers =
      [TransformedLayer.mk "root" "Root" "group" true 1 ⟨0, 75, 50, 50⟩
        ⟨1 / 2, 1 / 2, 0, 75⟩ none none] := by
  constructor
  · simp [computePayload, computeScaleAnchor, sampleSource, sampleTarget]
    norm_num [min_def]
  · simp [computePayload, baseLayers, payloadCtx, computeScaleAnchor,
      gateDecision, transformLayers, transformLayer, preClampPos, overrideFor,
      layerGeom, childDelta, layerScaleXY, clampY, sampleSource, sampleTarget,
      sampleRoot, SerializableLayer.id, SerializableLayer.coords]
    norm_num [min_def, max_def]
    have h1 : (75 : ℚ) ≤ 200 + 200 * p := by linarith
    have h2 : -(200 * p) ≤ (75 : ℚ) := by linarith
    simp [h1, h2]

/-- Witness for C6 amended at bleed fraction 1/20. -/
theorem C6_amended_witness :
    (computePayload sampleSource "T" sampleTarget false 5 none
        (1 / 20)).scaleFactor = 1 / 2 ∧
    (computePayload sampleSource "T" sampleTarget false 5 none
        (1 / 20)).layers =
      [TransformedLayer.mk "root" "Root" "group" true 1 ⟨0, 75, 50, 50⟩
        ⟨1 / 2, 1 / 2, 0, 75⟩ none none] :=
  C6_amended (1 / 20) (by norm_num)

/-- Witness for C2 at source {0,0,100,100}, target {0,0,50,200}: scale
1/2, anchor (0, 75); and with a BOTTOM-anchored strategy of suggested
scale 1 the anchor y is 200 − 100 = 100. -/
theorem C2_default_placement_witness :
    (computeScaleAnchor ⟨0, 0, 100, 100⟩ ⟨0, 0, 50, 200⟩ none).1 = 1 / 2 ∧
    (computeScaleAnchor ⟨0, 0, 100, 100⟩ ⟨0, 0, 50, 200⟩ none).2.1 = 0 ∧
    (computeScaleAnchor ⟨0, 0, 100, 100⟩ ⟨0, 0, 50, 200⟩ none).2.2 = 75 ∧
    (computeScaleAnchor ⟨0, 0, 100, 100⟩ ⟨0, 0, 50, 200⟩
        (some bottomStrategy)).2.2 = 100 := by
  have h := C2_default_placement ⟨0, 0, 100, 100⟩ ⟨0, 0, 50, 200⟩
    (by norm_num) (by norm_num) (by norm_num) (by norm_num)
  obtain ⟨⟨h1, h2, h3⟩, hstrat, -⟩ := h
  have hsc : (computeScaleAnchor ⟨0, 0, 100, 100⟩ ⟨0, 0, 50, 200⟩ none).1 = 1 / 2 := by
    rw [h1]; norm_num [min_def]
  refine ⟨hsc, ?_, ?_, ?_⟩
  · rw [h2, hsc]; norm_num
  · rw [h3, hsc]; norm_num
  · have hb := (hstrat bottomStrategy).2.2.2.1 rfl
    rw [hb]; norm_num [bottomStrategy]

end PSD
